import Mathlib

set_option autoImplicit false
set_option linter.unusedSectionVars false

/-!
Shallow embedding of `satella/coding/structures/dictionaries/cache_dict.py`
(`CacheDict`): a time-windowed, self-refreshing cache.

Modelling conventions:
* Time values (`time.monotonic()`, `time_getter()`) are integers `ℤ`
  (an arbitrary discretization of the real timeline: the code only ever
  subtracts and order-compares times, so the linear ordered ring `ℤ` is a
  faithful carrier and keeps every predicate kernel-decidable).
* The mutable state of a `CacheDict` instance (`self.data`,
  `self.timestamp_data`, `self.cache_missed`) is a `CacheState`.
* The immutable configuration (`stale_interval`, `expiration_interval`,
  `cache_failures_interval`) is a `CacheConfig`; `self.cache_failures`
  is `cache_failures_interval.isSome`.
* The external `value_getter` is an oracle: each operation that may invoke it
  takes a `FetchResult` parameter describing the outcome of that invocation
  (a value, a `KeyError`, or any other exception).
* `self.time_getter()` and `time.monotonic()` are sampled per call: operations
  take the sampled values `tgNow` (time_getter) and `monoNow` (time.monotonic)
  as explicit parameters.  Note that the source reads `time.monotonic()` at
  line 123 of `__getitem__` but stores `self.time_getter()` in `__setitem__`
  and `_on_failure`, so the two clocks are kept distinct in the model.
* Python exceptions are `PyExc`; a fallible operation returns its (possibly
  partially mutated) state together with `Option PyExc` / `Except PyExc`.
* Each read additionally reports a `FetchAction`: whether it submitted the
  `value_getter` synchronously, as a fire-and-forget background task, or
  not at all.
* `silence_excs(KeyError)` (recast_exceptions.py) is embedded exactly as
  written there: `rethrow_as.__exit__` (lines 79-85) has no
  `exc_type is None` guard, so on a *normal* exit of the guarded block it
  evaluates `issubclass(None, (KeyError,))`, which raises `TypeError`.
  Hence in this repository a `with silence_excs(KeyError):` block (and the
  `@silence_excs(KeyError)` decorator) silences a `KeyError` raised by its
  body, propagates any other exception of the body, and raises `TypeError`
  whenever the body completes normally — see `silencedKeyError`.
-/

namespace Satella

/-- Exceptions relevant to `CacheDict`.  `keyError` is Python's `KeyError`
(the spec's `NotFound`), `assertionError` is what a failing `assert` raises,
`typeError` models `TypeError` (comparison with `None`), `configurationError`
is `satella.exceptions.ConfigurationError`, and `otherExc` stands for any
other exception raised by the `value_getter`. -/
inductive PyExc where
  | keyError
  | assertionError
  | typeError
  | configurationError
  | otherExc
deriving DecidableEq, Repr

/-- Outcome of one invocation of the external `value_getter` for some key:
it returns a value, raises `KeyError`, or raises some other exception. -/
inductive FetchResult (V : Type) where
  | success (v : V)
  | keyError
  | otherExc
deriving DecidableEq, Repr

/-- What a call to `__getitem__` did with the `value_getter`:
nothing, a blocking (synchronous) fetch via `get_value_block`, or a
fire-and-forget background fetch via `schedule_a_fetch`. -/
inductive FetchAction (K : Type) where
  | noFetch
  | syncFetch (key : K)
  | backgroundFetch (key : K)
deriving DecidableEq, Repr

/-- Freshness classification of a cache entry, per the decision chain of
`__getitem__` (cache_dict.py lines 131-137). -/
inductive Freshness where
  | FRESH
  | STALE
  | EXPIRED
deriving DecidableEq, Repr

/-- The immutable configuration of a `CacheDict`
(`stale_interval`, `expiration_interval`, `cache_failures_interval`;
`self.cache_failures` is `cache_failures_interval.isSome`). -/
structure CacheConfig where
  stale_interval : ℤ
  expiration_interval : ℤ
  cache_failures_interval : Option ℤ
deriving DecidableEq, Repr

/-- `self.cache_failures` (cache_dict.py line 62). -/
def CacheConfig.cache_failures (cfg : CacheConfig) : Bool :=
  cfg.cache_failures_interval.isSome

/-- The mutable state of a `CacheDict`: `self.data`, `self.timestamp_data`
(both Python dicts, modelled as partial maps) and `self.cache_missed`
(a Python set, modelled as its membership predicate). -/
structure CacheState (K V : Type) where
  data : K → Option V
  timestamp_data : K → Option ℤ
  cache_missed : K → Bool

variable {K V : Type} [DecidableEq K]

/-- The state assembled by `CacheDict.__init__` (lines 59-61):
all three containers empty. -/
def initState (K V : Type) : CacheState K V :=
  { data := fun _ => none
    timestamp_data := fun _ => none
    cache_missed := fun _ => false }

/-- `CacheDict.__init__` (lines 47-64).  The `assert` on line 52 raises
`AssertionError` when `stale_interval > expiration_interval`; otherwise the
configuration is stored and the containers start empty. -/
def CacheDict_init (K V : Type) (stale_interval expiration_interval : ℤ)
    (cache_failures_interval : Option ℤ) :
    Except PyExc (CacheConfig × CacheState K V) :=
  if stale_interval ≤ expiration_interval then
    .ok (⟨stale_interval, expiration_interval, cache_failures_interval⟩,
         initState K V)
  else
    .error .assertionError

/-- The exception produced by a `with silence_excs(KeyError):` block (or
the `@silence_excs(KeyError)` decorator) of this repository around a body
whose own outcome is `raised`: a `KeyError` of the body is silenced, any
other exception of the body propagates, and a body that completes
normally makes `rethrow_as.__exit__` (recast_exceptions.py lines 79-85,
which lacks an `exc_type is None` guard) evaluate
`issubclass(None, (KeyError,))`, raising `TypeError`. -/
def silencedKeyError (raised : Option PyExc) : Option PyExc :=
  match raised with
  | some .keyError => none
  | some e => some e
  | none => some .typeError

/-- `CacheDict.__setitem__` (lines 145-152): store the value, stamp it with
`self.time_getter()` (= `tgNow`), then run
`with silence_excs(KeyError): self.cache_missed.remove(key)`.  When the key
had a cached miss, `remove` succeeds and the with-block's normal exit
raises `TypeError` (after all three mutations took effect); when the key
had no cached miss, `remove` raises `KeyError`, which is silenced, and the
miss set is untouched. -/
def setitem (st : CacheState K V) (key : K) (value : V) (tgNow : ℤ) :
    CacheState K V × Option PyExc :=
  if st.cache_missed key then
    ({ data := Function.update st.data key (some value)
       timestamp_data := Function.update st.timestamp_data key (some tgNow)
       cache_missed := Function.update st.cache_missed key false },
     some .typeError)
  else
    ({ st with
       data := Function.update st.data key (some value)
       timestamp_data := Function.update st.timestamp_data key (some tgNow) },
     none)

/-- `CacheDict._on_failure` (lines 80-87): when failure caching is enabled,
run `with silence_excs(KeyError): del self.data[key]`, then record the miss
and stamp it with `self.time_getter()` (= `tgNow`).  When the key holds an
entry, the `del` succeeds and the with-block's normal exit raises
`TypeError`, so the miss and the timestamp are never recorded; when it does
not, the `KeyError` is silenced and the recording proceeds. -/
def on_failure (cfg : CacheConfig) (st : CacheState K V) (key : K)
    (tgNow : ℤ) : CacheState K V × Option PyExc :=
  if cfg.cache_failures then
    match st.data key with
    | some _ =>
        ({ st with data := Function.update st.data key none },
         some .typeError)
    | none =>
        ({ st with
           timestamp_data := Function.update st.timestamp_data key (some tgNow)
           cache_missed := Function.update st.cache_missed key true },
         none)
  else
    (st, none)

/-- `CacheDict.__delitem__` (lines 139-143).  `del self.data[key]` raises
`KeyError` when the key is absent from `data` (state untouched); then
`del self.timestamp_data[key]` (a missing timestamp would raise after the
entry was already removed, hence the partially mutated state); then
`with silence_excs(KeyError): self.cache_missed.remove(key)` — which, per
the broken `__exit__`, raises `TypeError` when the key actually had a
cached miss (the removal having taken effect), and silences the `KeyError`
(miss set untouched) when it had none. -/
def delitem (st : CacheState K V) (key : K) :
    CacheState K V × Option PyExc :=
  match st.data key with
  | none => (st, some .keyError)
  | some _ =>
      let st1 : CacheState K V :=
        { st with data := Function.update st.data key none }
      match st1.timestamp_data key with
      | none => (st1, some .keyError)
      | some _ =>
          let st2 : CacheState K V :=
            { st1 with
              timestamp_data := Function.update st1.timestamp_data key none }
          if st2.cache_missed key then
            ({ st2 with
               cache_missed := Function.update st2.cache_missed key false },
             some .typeError)
          else
            (st2, none)

/-- `CacheDict.try_delete` (lines 105-116): `__delitem__` wrapped in the
`@silence_excs(KeyError)` decorator.  The decorator silences the absent-key
`KeyError`; but when `__delitem__` completes normally (a successful
deletion), the decorator's own `__exit__` runs on a normal exit and raises
`TypeError`; a `TypeError` of `__delitem__` itself propagates. -/
def try_delete (st : CacheState K V) (key : K) :
    CacheState K V × Option PyExc :=
  ((delitem st key).1, silencedKeyError (delitem st key).2)

/-- `CacheDict.get_value_block` (lines 66-78): submit `value_getter(key)`
and block on the result.  On success, store it via `__setitem__` (whose
`TypeError`, if any, propagates instead of the value being returned) and
return it; on `KeyError`, run `try_delete` (whose `TypeError` on an
entry-holding key propagates, skipping `_on_failure` and the re-raise),
then `_on_failure`, then re-raise the `KeyError`; any other exception of
the getter propagates with the state unchanged. -/
def get_value_block (cfg : CacheConfig) (st : CacheState K V) (key : K)
    (fetch : FetchResult V) (tgNow : ℤ) :
    CacheState K V × Except PyExc V :=
  match fetch with
  | .success v =>
      ((setitem st key v tgNow).1,
       match (setitem st key v tgNow).2 with
       | some e => .error e
       | none => .ok v)
  | .keyError =>
      match (try_delete st key).2 with
      | some e => ((try_delete st key).1, .error e)
      | none =>
          ((on_failure cfg (try_delete st key).1 key tgNow).1,
           match (on_failure cfg (try_delete st key).1 key tgNow).2 with
           | some e => .error e
           | none => .error .keyError)
  | .otherExc => (st, .error .otherExc)

/-- The completion callback installed by `CacheDict.schedule_a_fetch`
(lines 94-103), applied when the background fetch finishes: on success,
store the result via `__setitem__`; on `KeyError`, run `try_delete` then
`_on_failure`.  Any exception escaping the callback (including the
`TypeError` of a broken silencing block) is swallowed by the executor's
callback machinery, so only the state effects reached before it remain. -/
def on_done_callback (cfg : CacheConfig) (st : CacheState K V) (key : K)
    (fetch : FetchResult V) (tgNow : ℤ) : CacheState K V :=
  match fetch with
  | .success v => (setitem st key v tgNow).1
  | .keyError =>
      match (try_delete st key).2 with
      | some _ => (try_delete st key).1
      | none => (on_failure cfg (try_delete st key).1 key tgNow).1
  | .otherExc => st

/-- The freshness decision chain of `__getitem__` (lines 131-137), as the
pure policy of spec §4.2: `now - timestamp > expiration_interval` is
EXPIRED, else `now - timestamp > stale_interval` is STALE, else FRESH. -/
def classify (now timestamp stale_interval expiration_interval : ℤ) :
    Freshness :=
  if now - timestamp > expiration_interval then .EXPIRED
  else if now - timestamp > stale_interval then .STALE
  else .FRESH

/-- `CacheDict.__getitem__` (lines 118-137).  `monoNow` is the value of
`time.monotonic()` read on line 123; `fetch`/`tgNow` describe the outcome
and `time_getter()` stamp of the synchronous fetch, should one happen.
Returns the resulting state, the result or exception, and which fetch (if
any) was submitted.  A stale read only registers the background fetch
(`.backgroundFetch`); its completion is modelled separately by
`on_done_callback`. -/
def getitem (cfg : CacheConfig) (st : CacheState K V) (key : K)
    (monoNow : ℤ) (fetch : FetchResult V) (tgNow : ℤ) :
    CacheState K V × Except PyExc V × FetchAction K :=
  if (st.data key).isNone && !(st.cache_missed key) then
    let r := get_value_block cfg st key fetch tgNow
    (r.1, r.2, .syncFetch key)
  else
    match st.timestamp_data key with
    | none => (st, .error .keyError, .noFetch)
    | some timestamp =>
        if st.cache_missed key then
          match cfg.cache_failures_interval with
          | none => (st, .error .typeError, .noFetch)
          | some ci =>
              if monoNow - timestamp > ci then
                let r := get_value_block cfg st key fetch tgNow
                (r.1, r.2, .syncFetch key)
              else
                (st, .error .keyError, .noFetch)
        else
          match classify monoNow timestamp cfg.stale_interval
              cfg.expiration_interval with
          | .EXPIRED =>
              let r := get_value_block cfg st key fetch tgNow
              (r.1, r.2, .syncFetch key)
          | .STALE =>
              match st.data key with
              | some v => (st, .ok v, .backgroundFetch key)
              | none => (st, .error .keyError, .backgroundFetch key)
          | .FRESH =>
              match st.data key with
              | some v => (st, .ok v, .noFetch)
              | none => (st, .error .keyError, .noFetch)

/-- The Store invariant of spec §4.1/§3: per key, a cache entry and a
negative record are mutually exclusive, and any key carrying either also
carries a timestamp. -/
def StoreInvariant (st : CacheState K V) : Prop :=
  (∀ k, (st.data k).isSome → st.cache_missed k = false) ∧
  (∀ k, (st.data k).isSome ∨ st.cache_missed k = true →
    (st.timestamp_data k).isSome)

/-- States reachable from a freshly constructed `CacheDict` by any sequence
of public operations and background-fetch completions. -/
inductive Reachable (cfg : CacheConfig) : CacheState K V → Prop where
  | init : Reachable cfg (initState K V)
  | set (st : CacheState K V) (key : K) (value : V) (tgNow : ℤ) :
      Reachable cfg st → Reachable cfg (setitem st key value tgNow).1
  | del (st : CacheState K V) (key : K) :
      Reachable cfg st → Reachable cfg (delitem st key).1
  | get (st : CacheState K V) (key : K) (monoNow : ℤ) (fetch : FetchResult V)
      (tgNow : ℤ) : Reachable cfg st →
      Reachable cfg (getitem cfg st key monoNow fetch tgNow).1
  | block (st : CacheState K V) (key : K) (fetch : FetchResult V)
      (tgNow : ℤ) : Reachable cfg st →
      Reachable cfg (get_value_block cfg st key fetch tgNow).1
  | complete (st : CacheState K V) (key : K) (fetch : FetchResult V)
      (tgNow : ℤ) : Reachable cfg st →
      Reachable cfg (on_done_callback cfg st key fetch tgNow)

/-- A concrete configuration for witnesses: `stale_interval = 1`,
`expiration_interval = 3`, `cache_failures_interval = 5`. -/
def cfgW : CacheConfig := ⟨1, 3, some 5⟩

/-- A concrete state for witnesses: key `0` holds value `7` stamped at
time `10`, no cached misses. -/
def stW : CacheState ℕ ℕ :=
  { data := fun k => if k = 0 then some 7 else none
    timestamp_data := fun k => if k = 0 then some 10 else none
    cache_missed := fun _ => false }

/-- A concrete state holding only a negative record for key `0`
(stamped at time `0`), as `_on_failure` leaves it. -/
def negStW : CacheState ℕ ℕ :=
  { data := fun _ => none
    timestamp_data := fun k => if k = 0 then some 0 else none
    cache_missed := fun k => k == 0 }

/-! ### Helper lemmas -/

theorem classify_eq_FRESH {now ts stale exp : ℤ} (hle : stale ≤ exp)
    (h : now - ts ≤ stale) : classify now ts stale exp = .FRESH := by
  unfold classify
  split_ifs with h1 h2
  · exfalso; omega
  · exfalso; omega
  · rfl

theorem classify_eq_STALE {now ts stale exp : ℤ} (h1 : stale < now - ts)
    (h2 : now - ts ≤ exp) : classify now ts stale exp = .STALE := by
  unfold classify
  split_ifs <;> first | rfl | (exfalso; omega)

theorem classify_eq_EXPIRED {now ts stale exp : ℤ} (h : exp < now - ts) :
    classify now ts stale exp = .EXPIRED := by
  unfold classify
  split_ifs <;> rfl

/-- Unfolding of `__getitem__` on a key that has a cache entry (and its
timestamp) and no cached miss: the outcome is dictated by `classify`. -/
theorem getitem_entry_eq (cfg : CacheConfig) (st : CacheState K V) (key : K)
    (v : V) (ts monoNow : ℤ) (fetch : FetchResult V) (tgNow : ℤ)
    (hd : st.data key = some v) (hm : st.cache_missed key = false)
    (ht : st.timestamp_data key = some ts) :
    getitem cfg st key monoNow fetch tgNow =
      match classify monoNow ts cfg.stale_interval
          cfg.expiration_interval with
      | .EXPIRED =>
          ((get_value_block cfg st key fetch tgNow).1,
           (get_value_block cfg st key fetch tgNow).2, .syncFetch key)
      | .STALE => (st, .ok v, .backgroundFetch key)
      | .FRESH => (st, .ok v, .noFetch) := by
  unfold getitem
  simp only [hd, hm, ht, Option.isNone_some, Bool.false_and, Bool.not_false,
    Bool.false_eq_true, if_false, Bool.if_false_left]

/-- A FRESH read (entry present, no cached miss, age within the stale
window) returns the stored value untouched, with no fetch. -/
theorem getitem_FRESH_eq (cfg : CacheConfig) (st : CacheState K V) (key : K)
    (v : V) (ts monoNow tgNow : ℤ) (fetch : FetchResult V)
    (hle : cfg.stale_interval ≤ cfg.expiration_interval)
    (hd : st.data key = some v) (hm : st.cache_missed key = false)
    (ht : st.timestamp_data key = some ts)
    (hfresh : monoNow - ts ≤ cfg.stale_interval) :
    getitem cfg st key monoNow fetch tgNow = (st, .ok v, .noFetch) := by
  rw [getitem_entry_eq cfg st key v ts monoNow fetch tgNow hd hm ht,
    classify_eq_FRESH hle hfresh]

theorem setitem_data_self (st : CacheState K V) (key : K) (value : V)
    (tgNow : ℤ) : (setitem st key value tgNow).1.data key = some value := by
  unfold setitem
  split_ifs <;> simp

theorem setitem_timestamp_self (st : CacheState K V) (key : K) (value : V)
    (tgNow : ℤ) :
    (setitem st key value tgNow).1.timestamp_data key = some tgNow := by
  unfold setitem
  split_ifs <;> simp

theorem setitem_missed_self (st : CacheState K V) (key : K) (value : V)
    (tgNow : ℤ) :
    (setitem st key value tgNow).1.cache_missed key = false := by
  unfold setitem
  split_ifs with h <;> simp
  simpa using h

/-- `__setitem__` raises nothing when the key had no cached miss (the
`remove` raises `KeyError`, which the block silences correctly). -/
theorem setitem_err_of_not_missed (st : CacheState K V) (key : K)
    (value : V) (tgNow : ℤ) (hm : st.cache_missed key = false) :
    (setitem st key value tgNow).2 = none := by
  simp [setitem, hm]

/-- Unfolding of `__getitem__` on a key with neither an entry nor a cached
miss (line 119-120): a blocking fetch via `get_value_block`. -/
theorem getitem_absent_eq (cfg : CacheConfig) (st : CacheState K V)
    (key : K) (monoNow tgNow : ℤ) (fetch : FetchResult V)
    (hd : st.data key = none) (hm : st.cache_missed key = false) :
    getitem cfg st key monoNow fetch tgNow =
      ((get_value_block cfg st key fetch tgNow).1,
       (get_value_block cfg st key fetch tgNow).2, .syncFetch key) := by
  unfold getitem
  simp [hd, hm]

/-- Unfolding of `__getitem__` on a key with a cached miss while failure
caching is configured (lines 125-129). -/
theorem getitem_negative_eq (cfg : CacheConfig) (st : CacheState K V)
    (key : K) (ts ci monoNow tgNow : ℤ) (fetch : FetchResult V)
    (hm : st.cache_missed key = true)
    (ht : st.timestamp_data key = some ts)
    (hci : cfg.cache_failures_interval = some ci) :
    getitem cfg st key monoNow fetch tgNow =
      if ci < monoNow - ts then
        ((get_value_block cfg st key fetch tgNow).1,
         (get_value_block cfg st key fetch tgNow).2, .syncFetch key)
      else
        (st, .error .keyError, .noFetch) := by
  unfold getitem
  simp [hm, ht, hci]

/-- A STALE read: stored value returned as is, one background fetch. -/
theorem getitem_STALE_eq (cfg : CacheConfig) (st : CacheState K V) (key : K)
    (v : V) (ts monoNow tgNow : ℤ) (fetch : FetchResult V)
    (hd : st.data key = some v) (hm : st.cache_missed key = false)
    (ht : st.timestamp_data key = some ts)
    (h1 : cfg.stale_interval < monoNow - ts)
    (h2 : monoNow - ts ≤ cfg.expiration_interval) :
    getitem cfg st key monoNow fetch tgNow =
      (st, .ok v, .backgroundFetch key) := by
  rw [getitem_entry_eq cfg st key v ts monoNow fetch tgNow hd hm ht,
    classify_eq_STALE h1 h2]

/-- The per-key effect of `_on_failure` when failure caching is on and the
key holds no entry — the only case in which the silenced `del` raises (and
is silenced), letting the recording of the miss proceed. -/
theorem on_failure_state (cfg : CacheConfig) (st : CacheState K V) (key : K)
    (tgNow : ℤ) (h : cfg.cache_failures = true)
    (hd : st.data key = none) :
    (on_failure cfg st key tgNow).1.data key = none ∧
    (on_failure cfg st key tgNow).1.timestamp_data key = some tgNow ∧
    (on_failure cfg st key tgNow).1.cache_missed key = true ∧
    (on_failure cfg st key tgNow).2 = none := by
  simp [on_failure, h, hd]

/-! ### Claim theorems -/

/-- C1: for a cache entry of age `a = now - timestamp`, the decision chain
of `__getitem__` (lines 131-137, factored as `classify`) yields FRESH for
`a ≤ stale_interval`, STALE for `stale_interval < a ≤ expiration_interval`,
and EXPIRED for `a > expiration_interval`; in particular `a =
stale_interval` is FRESH and (when the windows are distinct) `a =
expiration_interval` is STALE. -/
theorem freshness_boundary_classification (stale exp : ℤ)
    (hle : stale ≤ exp) :
    (∀ now ts : ℤ, now - ts ≤ stale →
      classify now ts stale exp = .FRESH) ∧
    (∀ now ts : ℤ, stale < now - ts → now - ts ≤ exp →
      classify now ts stale exp = .STALE) ∧
    (∀ now ts : ℤ, exp < now - ts →
      classify now ts stale exp = .EXPIRED) :=
  ⟨fun _ _ h => classify_eq_FRESH hle h,
   fun _ _ h1 h2 => classify_eq_STALE h1 h2,
   fun _ _ h => classify_eq_EXPIRED h⟩

/-- Witness for C1 with `stale_interval = 1`, `expiration_interval = 3`:
age `1` (exactly the stale interval) is FRESH, age `3` (exactly the
expiration interval) is STALE, age `4` is EXPIRED. -/
theorem freshness_boundary_classification_witness :
    classify 1 0 1 3 = Freshness.FRESH ∧
    classify 3 0 1 3 = Freshness.STALE ∧
    classify 4 0 1 3 = Freshness.EXPIRED :=
  ⟨(freshness_boundary_classification 1 3 (by decide)).1 1 0 (by decide),
   (freshness_boundary_classification 1 3 (by decide)).2.1 3 0 (by decide)
     (by decide),
   (freshness_boundary_classification 1 3 (by decide)).2.2 4 0 (by decide)⟩

/-- C8: reading a FRESH key (entry age at most `stale_interval`) never
invokes the `value_getter` (`.noFetch`) and leaves the entire cache state —
values, timestamps and cached misses — unchanged, returning the stored
value. -/
theorem fresh_read_no_side_effect (cfg : CacheConfig) (st : CacheState K V)
    (key : K) (v : V) (ts monoNow tgNow : ℤ) (fetch : FetchResult V)
    (hle : cfg.stale_interval ≤ cfg.expiration_interval)
    (hd : st.data key = some v) (hm : st.cache_missed key = false)
    (ht : st.timestamp_data key = some ts)
    (hfresh : monoNow - ts ≤ cfg.stale_interval) :
    getitem cfg st key monoNow fetch tgNow = (st, .ok v, .noFetch) :=
  getitem_FRESH_eq cfg st key v ts monoNow tgNow fetch hle hd hm ht hfresh

/-- Witness for C8: key `0` of `stW` (stamped at 10) read at time 11
(age 1 = stale interval of `cfgW`). -/
theorem fresh_read_no_side_effect_witness :
    getitem cfgW stW 0 11 FetchResult.otherExc 99 =
      (stW, Except.ok 7, FetchAction.noFetch) :=
  fresh_read_no_side_effect cfgW stW 0 7 10 11 99 FetchResult.otherExc
    (by decide) (by decide) (by decide) (by decide) (by decide)

/-- C5 theorem: `set(k, v)` is NOT failure-free over a prior negative
record.  `__setitem__` on `negStW` (which holds a cached miss for key `0`)
performs all three mutations and then raises `TypeError`: the
`cache_missed.remove(key)` succeeds, so the `with silence_excs(KeyError):`
block exits normally and the guard-less `rethrow_as.__exit__` evaluates
`issubclass(None, (KeyError,))`.  Over a key with no cached miss the same
write raises nothing.  The read-back half of the claim does hold: an
immediate read of the written key returns the value, FRESH, with no
fetch. -/
theorem set_over_negative_record_raises :
    (setitem negStW 0 42 20).2 = some PyExc.typeError ∧
    (setitem stW 0 42 20).2 = none ∧
    (setitem negStW 0 42 20).1.data 0 = some 42 ∧
    (setitem negStW 0 42 20).1.cache_missed 0 = false ∧
    classify 20 20 cfgW.stale_interval cfgW.expiration_interval =
      Freshness.FRESH ∧
    getitem cfgW (setitem negStW 0 42 20).1 0 20 FetchResult.keyError 99 =
      ((setitem negStW 0 42 20).1, Except.ok 42, FetchAction.noFetch) :=
  ⟨rfl, rfl, rfl, rfl, rfl, rfl⟩

/-- C2: for a key with neither a cache entry nor a cached miss,
`__getitem__` performs a blocking fetch: it submits the `value_getter` for
that key (`.syncFetch`); on success it stores the returned value stamped
with the current `time_getter()` reading and returns it; a `KeyError` or
any other failure of the fetch propagates to the caller (the latter with
the state untouched). -/
theorem miss_triggers_blocking_fetch (cfg : CacheConfig)
    (st : CacheState K V) (key : K) (monoNow tgNow : ℤ)
    (hd : st.data key = none) (hm : st.cache_missed key = false) :
    (∀ fetch : FetchResult V,
      (getitem cfg st key monoNow fetch tgNow).2.2 = .syncFetch key) ∧
    (∀ v : V, getitem cfg st key monoNow (.success v) tgNow =
      ((setitem st key v tgNow).1, .ok v, .syncFetch key) ∧
      (setitem st key v tgNow).1.data key = some v ∧
      (setitem st key v tgNow).1.timestamp_data key = some tgNow) ∧
    (getitem cfg st key monoNow .keyError tgNow).2.1 = .error .keyError ∧
    getitem cfg st key monoNow .otherExc tgNow =
      (st, .error .otherExc, .syncFetch key) := by
  refine ⟨fun fetch => ?_,
    fun v => ⟨?_, setitem_data_self st key v tgNow,
      setitem_timestamp_self st key v tgNow⟩, ?_, ?_⟩
  · rw [getitem_absent_eq cfg st key monoNow tgNow fetch hd hm]
  · rw [getitem_absent_eq cfg st key monoNow tgNow _ hd hm]
    simp [get_value_block, setitem_err_of_not_missed st key v tgNow hm]
  · rw [getitem_absent_eq cfg st key monoNow tgNow _ hd hm]
    cases hcf : cfg.cache_failures <;>
      simp [get_value_block, try_delete, delitem, silencedKeyError,
        on_failure, hd, hcf]
  · rw [getitem_absent_eq cfg st key monoNow tgNow _ hd hm]
    simp [get_value_block]

/-- Witness for C2 at the absent key `1` of `stW`. -/
theorem miss_triggers_blocking_fetch_witness :
    (∀ fetch : FetchResult ℕ,
      (getitem cfgW stW 1 50 fetch 60).2.2 = FetchAction.syncFetch 1) ∧
    (∀ v : ℕ, getitem cfgW stW 1 50 (.success v) 60 =
      ((setitem stW 1 v 60).1, Except.ok v, FetchAction.syncFetch 1) ∧
      (setitem stW 1 v 60).1.data 1 = some v ∧
      (setitem stW 1 v 60).1.timestamp_data 1 = some 60) ∧
    (getitem cfgW stW 1 50 FetchResult.keyError 60).2.1 =
      Except.error PyExc.keyError ∧
    getitem cfgW stW 1 50 FetchResult.otherExc 60 =
      (stW, Except.error PyExc.otherExc, FetchAction.syncFetch 1) :=
  miss_triggers_blocking_fetch cfgW stW 1 50 60 (by decide) (by decide)

/-- C3 theorem: with failure caching configured (`cfgW`), a `KeyError`
fetch for a key that holds a cache entry (`stW`, key `0`) never records
the miss: `try_delete` removes the entry and its timestamp and then its
broken decorator exit raises `TypeError`, which aborts `get_value_block`
before `_on_failure` runs — the caller gets `TypeError` (not `KeyError`),
no negative record exists, and an immediate subsequent read submits the
`value_getter` again instead of failing from the cache.  For a key with
no entry (the cached-miss scenario, from `initState`), the miss IS
recorded at the failure stamp and the claimed round trip holds: a read at
age 5 (within the interval) raises `KeyError` with no fetch, a read at
age 6 submits the getter again. -/
theorem negative_record_not_installed_for_entry :
    (get_value_block cfgW stW 0 FetchResult.keyError 100).2 =
      Except.error PyExc.typeError ∧
    (get_value_block cfgW stW 0 FetchResult.keyError 100).1.data 0 = none ∧
    (get_value_block cfgW stW 0 FetchResult.keyError 100).1.timestamp_data 0
        = none ∧
    (get_value_block cfgW stW 0 FetchResult.keyError 100).1.cache_missed 0
        = false ∧
    (getitem cfgW (get_value_block cfgW stW 0 FetchResult.keyError 100).1 0
        101 (FetchResult.success 9) 101).2.2 = FetchAction.syncFetch 0 ∧
    (get_value_block cfgW (initState ℕ ℕ) 0 FetchResult.keyError 100).2 =
      Except.error PyExc.keyError ∧
    getitem cfgW
        (get_value_block cfgW (initState ℕ ℕ) 0 FetchResult.keyError 100).1
        0 105 (FetchResult.success 9) 105 =
      ((get_value_block cfgW (initState ℕ ℕ) 0 FetchResult.keyError 100).1,
       Except.error PyExc.keyError, FetchAction.noFetch) ∧
    (getitem cfgW
        (get_value_block cfgW (initState ℕ ℕ) 0 FetchResult.keyError 100).1
        0 106 (FetchResult.success 9) 106).2.2 = FetchAction.syncFetch 0 :=
  ⟨rfl, rfl, rfl, rfl, rfl, rfl, rfl, rfl⟩

/-- C4: a STALE read (stale_interval < age ≤ expiration_interval) returns
the currently stored value without blocking, leaves the state unchanged,
and submits exactly one background fetch (`.backgroundFetch`); when that
background fetch completes successfully with `w`, the store holds `w` with
the completion stamp, so a subsequent within-window read returns `w`. -/
theorem stale_read_refresh_round_trip (cfg : CacheConfig)
    (st : CacheState K V) (key : K) (v : V) (ts monoNow tgNow : ℤ)
    (fetch : FetchResult V)
    (hle : cfg.stale_interval ≤ cfg.expiration_interval)
    (hd : st.data key = some v) (hm : st.cache_missed key = false)
    (ht : st.timestamp_data key = some ts)
    (h1 : cfg.stale_interval < monoNow - ts)
    (h2 : monoNow - ts ≤ cfg.expiration_interval) :
    getitem cfg st key monoNow fetch tgNow =
      (st, .ok v, .backgroundFetch key) ∧
    (∀ (w : V) (tc : ℤ),
      (on_done_callback cfg st key (.success w) tc).data key = some w ∧
      (on_done_callback cfg st key (.success w) tc).timestamp_data key =
        some tc) ∧
    (∀ (w : V) (tc now2 tg2 : ℤ) (fetch2 : FetchResult V),
      now2 - tc ≤ cfg.stale_interval →
      getitem cfg (on_done_callback cfg st key (.success w) tc) key now2
          fetch2 tg2 =
        (on_done_callback cfg st key (.success w) tc, .ok w, .noFetch)) := by
  refine ⟨getitem_STALE_eq cfg st key v ts monoNow tgNow fetch hd hm ht h1 h2,
    fun w tc => ⟨setitem_data_self st key w tc,
      setitem_timestamp_self st key w tc⟩,
    fun w tc now2 tg2 fetch2 hfr => ?_⟩
  exact getitem_FRESH_eq cfg _ key w tc now2 tg2 fetch2 hle
    (setitem_data_self st key w tc) (setitem_missed_self st key w tc)
    (setitem_timestamp_self st key w tc) hfr

/-- Witness for C4: key `0` of `stW` (stamped 10) read at time `12`
(age 2, stale under `cfgW`), background completion with value `8` at time
`13`, re-read at time `13`. -/
theorem stale_read_refresh_round_trip_witness :
    getitem cfgW stW 0 12 FetchResult.otherExc 99 =
      (stW, Except.ok 7, FetchAction.backgroundFetch 0) ∧
    (∀ (w : ℕ) (tc : ℤ),
      (on_done_callback cfgW stW 0 (.success w) tc).data 0 = some w ∧
      (on_done_callback cfgW stW 0 (.success w) tc).timestamp_data 0 =
        some tc) ∧
    (∀ (w : ℕ) (tc now2 tg2 : ℤ) (fetch2 : FetchResult ℕ),
      now2 - tc ≤ cfgW.stale_interval →
      getitem cfgW (on_done_callback cfgW stW 0 (.success w) tc) 0 now2
          fetch2 tg2 =
        (on_done_callback cfgW stW 0 (.success w) tc, Except.ok w,
         FetchAction.noFetch)) :=
  stale_read_refresh_round_trip cfgW stW 0 7 10 12 99 FetchResult.otherExc
    (by decide) (by decide) (by decide) (by decide) (by decide) (by decide)

/-- Counterexample for C6: `negStW` holds a negative record for key `0`
(with its timestamp), yet `try_delete` leaves the record fully in place —
`del self.data[key]` raises `KeyError` before the negative record is
reached, and `try_delete` merely silences that error.  So a delete on a
key present as a negative record does not remove the negative record,
contrary to the claim. -/
theorem delete_negative_record_counterexample :
    negStW.cache_missed 0 = true ∧
    (try_delete negStW 0).1.cache_missed 0 = true ∧
    (try_delete negStW 0).1.timestamp_data 0 = some 0 ∧
    try_delete negStW 0 = (negStW, none) :=
  ⟨rfl, rfl, rfl, rfl⟩

/-- C6 (amended): `try_delete` on a key absent from `data` raises nothing
and leaves the state — including any negative record for that key —
unchanged; on a key holding a cache entry and its timestamp it removes
the entry, the timestamp, and any cached miss, but then raises
`TypeError`: `__delitem__` having completed, the `@silence_excs(KeyError)`
decorator's `__exit__` runs on a normal exit without an
`exc_type is None` guard. -/
theorem delete_semantics_amended (st : CacheState K V) (key : K) :
    (st.data key = none → try_delete st key = (st, none)) ∧
    (∀ (v : V) (ts : ℤ), st.data key = some v →
      st.timestamp_data key = some ts →
      (try_delete st key).1.data key = none ∧
      (try_delete st key).1.timestamp_data key = none ∧
      (try_delete st key).1.cache_missed key = false ∧
      (try_delete st key).2 = some .typeError) := by
  constructor
  · intro h
    simp [try_delete, delitem, h, silencedKeyError]
  · intro v ts hv hts
    unfold try_delete delitem
    simp only [hv, hts]
    by_cases hmk : st.cache_missed key = true <;>
      simp [hmk, silencedKeyError]

/-- Witness for C6 (amended): key `1` is absent from `stW` (delete is a
silent no-op); key `0` of `stW` holds an entry, which is fully removed
before the decorator's `TypeError` surfaces. -/
theorem delete_semantics_amended_witness :
    try_delete stW 1 = (stW, none) ∧
    ((try_delete stW 0).1.data 0 = none ∧
     (try_delete stW 0).1.timestamp_data 0 = none ∧
     (try_delete stW 0).1.cache_missed 0 = false ∧
     (try_delete stW 0).2 = some PyExc.typeError) :=
  ⟨(delete_semantics_amended stW 1).1 (by decide),
   (delete_semantics_amended stW 0).2 7 10 (by decide) (by decide)⟩

/-- Counterexample for C7: constructing with `stale_interval = 2 >
1 = expiration_interval` fails with `AssertionError` (the bare `assert` on
line 52 of cache_dict.py), not with `satella.exceptions.ConfigurationError`
as the claim states. -/
theorem construction_error_counterexample :
    CacheDict_init ℕ ℕ 2 1 none = Except.error PyExc.assertionError ∧
    CacheDict_init ℕ ℕ 2 1 none ≠ Except.error PyExc.configurationError := by
  refine ⟨rfl, fun h => ?_⟩
  rw [show CacheDict_init ℕ ℕ 2 1 none = Except.error PyExc.assertionError
    from rfl] at h
  simp at h

/-- C7 (amended): constructing with `stale_interval > expiration_interval`
does fail, but with the `AssertionError` of the constructor's bare
`assert`, not with `ConfigurationError`. -/
theorem construction_validation_amended (stale exp : ℤ) (cfi : Option ℤ)
    (h : exp < stale) :
    CacheDict_init K V stale exp cfi = .error .assertionError := by
  unfold CacheDict_init
  rw [if_neg (by omega)]

/-- Witness for C7 (amended) at `stale_interval = 2`,
`expiration_interval = 1`. -/
theorem construction_validation_amended_witness :
    CacheDict_init ℕ ℕ 2 1 none = Except.error PyExc.assertionError :=
  construction_validation_amended (K := ℕ) (V := ℕ) 2 1 none (by decide)

/-- C9 theorem: the read path takes its current time from
`time.monotonic()` (cache_dict.py line 123), not from the configured
`time_getter` used to record timestamps in `__setitem__` and `_on_failure`.
Concretely: with `stale_interval = 10`, `expiration_interval = 20`, an
entry stamped by the configured clock at `0`, and the configured clock
still reading `0` at the read (zero elapsed time on the supplied clock —
FRESH under the classification, so no fetch should happen per the claim),
`__getitem__` nevertheless performs a blocking fetch because its `monoNow`
sample reads `100`; had the read used the configured clock's reading `0`,
it would have served the entry with no fetch. -/
theorem read_clock_uses_monotonic :
    classify 0 0 (10:ℤ) 20 = Freshness.FRESH ∧
    (getitem ⟨10, 20, none⟩ (setitem (initState ℕ ℕ) 0 1 0).1 0 100
      (FetchResult.success 2) 0).2.2 = FetchAction.syncFetch 0 ∧
    (getitem ⟨10, 20, none⟩ (setitem (initState ℕ ℕ) 0 1 0).1 0 0
      (FetchResult.success 2) 0).2.2 = FetchAction.noFetch :=
  ⟨by decide, rfl, rfl⟩

/-! ### The Store invariant (C10) -/

theorem StoreInvariant_initState : StoreInvariant (initState K V) := by
  constructor <;> intro k <;> simp [initState]

theorem StoreInvariant_setitem (st : CacheState K V) (key : K) (value : V)
    (tgNow : ℤ) (h : StoreInvariant st) :
    StoreInvariant (setitem st key value tgNow).1 := by
  obtain ⟨h1, h2⟩ := h
  unfold setitem
  split_ifs with hmk
  · constructor <;> intro k <;>
      simp only [Function.update_apply] <;> split_ifs with hk <;>
      first
        | simp
        | exact fun hx => h1 k hx
        | exact fun hx => h2 k hx
  · constructor <;> intro k <;>
      simp only [Function.update_apply] <;> split_ifs with hk
    · intro _
      rw [hk]
      simpa using hmk
    · exact fun hx => h1 k hx
    · simp
    · exact fun hx => h2 k hx

theorem StoreInvariant_on_failure (cfg : CacheConfig) (st : CacheState K V)
    (key : K) (tgNow : ℤ) (h : StoreInvariant st) :
    StoreInvariant (on_failure cfg st key tgNow).1 := by
  obtain ⟨h1, h2⟩ := h
  unfold on_failure
  split_ifs with hc
  · cases hd : st.data key with
    | some v =>
        constructor <;> intro k <;>
          simp only [Function.update_apply] <;> split_ifs with hk
        · simp
        · exact fun hx => h1 k hx
        · exact fun hx => h2 k (Or.inr (by simpa using hx))
        · exact fun hx => h2 k hx
    | none =>
        constructor <;> intro k <;>
          simp only [Function.update_apply] <;> split_ifs with hk
        · intro hx
          rw [hk, hd] at hx
          simp at hx
        · exact fun hx => h1 k hx
        · simp
        · exact fun hx => h2 k hx
  · exact ⟨h1, h2⟩

theorem StoreInvariant_delitem (st : CacheState K V) (key : K)
    (h : StoreInvariant st) : StoreInvariant (delitem st key).1 := by
  obtain ⟨h1, h2⟩ := h
  unfold delitem
  cases hd : st.data key with
  | none => exact ⟨h1, h2⟩
  | some v =>
      have hts : (st.timestamp_data key).isSome := h2 key (by simp [hd])
      cases hts2 : st.timestamp_data key with
      | none => rw [hts2] at hts; simp at hts
      | some ts =>
          simp only [hts2]
          split_ifs with hmk
          · constructor <;> intro k <;>
              simp only [Function.update_apply] <;> split_ifs with hk <;>
              first
                | simp
                | exact fun hx => h1 k hx
                | exact fun hx => h2 k hx
          · constructor <;> intro k <;>
              simp only [Function.update_apply] <;> split_ifs with hk
            · simp
            · exact fun hx => h1 k hx
            · intro hx
              exfalso
              rcases hx with hx | hx
              · simp at hx
              · rw [hk] at hx
                exact hmk hx
            · exact fun hx => h2 k hx

theorem StoreInvariant_get_value_block (cfg : CacheConfig)
    (st : CacheState K V) (key : K) (fetch : FetchResult V) (tgNow : ℤ)
    (h : StoreInvariant st) :
    StoreInvariant (get_value_block cfg st key fetch tgNow).1 := by
  cases fetch with
  | success v => exact StoreInvariant_setitem st key v tgNow h
  | keyError =>
      cases he : (try_delete st key).2 with
      | some e =>
          have hg : (get_value_block cfg st key
              (.keyError : FetchResult V) tgNow).1 = (try_delete st key).1 := by
            unfold get_value_block
            rw [he]
          rw [hg]
          exact StoreInvariant_delitem st key h
      | none =>
          have hg : (get_value_block cfg st key
              (.keyError : FetchResult V) tgNow).1 =
              (on_failure cfg (try_delete st key).1 key tgNow).1 := by
            unfold get_value_block
            rw [he]
          rw [hg]
          exact StoreInvariant_on_failure cfg _ key tgNow
            (StoreInvariant_delitem st key h)
  | otherExc => exact h

theorem StoreInvariant_on_done_callback (cfg : CacheConfig)
    (st : CacheState K V) (key : K) (fetch : FetchResult V) (tgNow : ℤ)
    (h : StoreInvariant st) :
    StoreInvariant (on_done_callback cfg st key fetch tgNow) := by
  cases fetch with
  | success v => exact StoreInvariant_setitem st key v tgNow h
  | keyError =>
      cases he : (try_delete st key).2 with
      | some e =>
          have hg : on_done_callback cfg st key
              (.keyError : FetchResult V) tgNow = (try_delete st key).1 := by
            unfold on_done_callback
            rw [he]
          rw [hg]
          exact StoreInvariant_delitem st key h
      | none =>
          have hg : on_done_callback cfg st key
              (.keyError : FetchResult V) tgNow =
              (on_failure cfg (try_delete st key).1 key tgNow).1 := by
            unfold on_done_callback
            rw [he]
          rw [hg]
          exact StoreInvariant_on_failure cfg _ key tgNow
            (StoreInvariant_delitem st key h)
  | otherExc => exact h

/-- The state left by `__getitem__` is either the input state or the state
left by the blocking fetch. -/
theorem getitem_fst_cases (cfg : CacheConfig) (st : CacheState K V)
    (key : K) (monoNow : ℤ) (fetch : FetchResult V) (tgNow : ℤ) :
    (getitem cfg st key monoNow fetch tgNow).1 = st ∨
    (getitem cfg st key monoNow fetch tgNow).1 =
      (get_value_block cfg st key fetch tgNow).1 := by
  unfold getitem
  repeat' split
  all_goals first | (left; rfl) | (right; rfl)

theorem StoreInvariant_getitem (cfg : CacheConfig) (st : CacheState K V)
    (key : K) (monoNow : ℤ) (fetch : FetchResult V) (tgNow : ℤ)
    (h : StoreInvariant st) :
    StoreInvariant (getitem cfg st key monoNow fetch tgNow).1 := by
  rcases getitem_fst_cases cfg st key monoNow fetch tgNow with he | he <;>
    rw [he]
  · exact h
  · exact StoreInvariant_get_value_block cfg st key fetch tgNow h

/-- C10: every state reachable by any sequence of operations (reads,
writes, deletes, blocking fetches, background-fetch completions) satisfies
the Store invariant: no key simultaneously has a cache entry and a
negative record, and every key holding either also holds a timestamp — so
the unguarded `self.timestamp_data[key]` lookup of the read path never
fails for a present key. -/
theorem store_invariant_reachable (cfg : CacheConfig) (st : CacheState K V)
    (h : Reachable cfg st) :
    (∀ k, (st.data k).isSome → st.cache_missed k = false) ∧
    (∀ k, (st.data k).isSome ∨ st.cache_missed k = true →
      st.timestamp_data k ≠ none) := by
  have hinv : StoreInvariant st := by
    induction h with
    | init => exact StoreInvariant_initState
    | set st key value tgNow _ ih =>
        exact StoreInvariant_setitem st key value tgNow ih
    | del st key _ ih => exact StoreInvariant_delitem st key ih
    | get st key monoNow fetch tgNow _ ih =>
        exact StoreInvariant_getitem cfg st key monoNow fetch tgNow ih
    | block st key fetch tgNow _ ih =>
        exact StoreInvariant_get_value_block cfg st key fetch tgNow ih
    | complete st key fetch tgNow _ ih =>
        exact StoreInvariant_on_done_callback cfg st key fetch tgNow ih
  obtain ⟨h1, h2⟩ := hinv
  exact ⟨h1, fun k hk => by
    have := h2 k hk
    intro hnone
    rw [hnone] at this
    simp at this⟩

/-- Witness for C10: the state reached by construction, a write, a failed
blocking fetch at another key, and a background completion. -/
theorem store_invariant_reachable_witness :
    (∀ k, ((on_done_callback cfgW
        (get_value_block cfgW (setitem (initState ℕ ℕ) 0 7 10).1 1
          FetchResult.keyError 11).1 2 (FetchResult.success 5) 12).data k
          ).isSome →
      (on_done_callback cfgW
        (get_value_block cfgW (setitem (initState ℕ ℕ) 0 7 10).1 1
          FetchResult.keyError 11).1 2 (FetchResult.success 5) 12
          ).cache_missed k = false) ∧
    (∀ k, ((on_done_callback cfgW
        (get_value_block cfgW (setitem (initState ℕ ℕ) 0 7 10).1 1
          FetchResult.keyError 11).1 2 (FetchResult.success 5) 12).data k
          ).isSome ∨
      (on_done_callback cfgW
        (get_value_block cfgW (setitem (initState ℕ ℕ) 0 7 10).1 1
          FetchResult.keyError 11).1 2 (FetchResult.success 5) 12
          ).cache_missed k = true →
      (on_done_callback cfgW
        (get_value_block cfgW (setitem (initState ℕ ℕ) 0 7 10).1 1
          FetchResult.keyError 11).1 2 (FetchResult.success 5) 12
          ).timestamp_data k ≠ none) :=
  store_invariant_reachable cfgW _
    ((Reachable.init).set _ 0 7 10 |>.block _ 1 FetchResult.keyError 11
      |>.complete _ 2 (FetchResult.success 5) 12)

end Satella
